import Mathlib

/-!
Verification of the synchronization/caching core of the beehive dashboard
(`data_loader.py`): a shallow embedding of `GitHubDataLoader` and its
module-level helpers, with theorems settling the specified properties of
change detection, caching, fallback, copying and the monitoring lifecycle.

Network I/O (HTTP fetches, JSON parsing by the `json` library) is modelled
by an oracle (`Remote`) supplying, per call, the outcome each external
request would produce.  Python object identity (needed for the copy/alias
properties of `load_data_with_cache`) is modelled by a small explicit heap
of addresses.
-/

/-- One parsed sensor reading, after the `pd.to_datetime` conversion of the
timestamp column (instants modelled as integers). -/
structure Reading where
  hiveId : String
  timestamp : Int
  temperature : Int
  humidity : Int
  weight : Int
deriving Repr, DecidableEq

/-- One record of `beehive_data.json` as parsed JSON: the timestamp is still
the raw string, converted only inside `load_data_with_cache`. -/
structure RawReading where
  hiveId : String
  timestamp : String
  temperature : Int
  humidity : Int
  weight : Int
deriving Repr, DecidableEq

/-- One entry of `hives_config.json`. -/
structure HiveConfig where
  id : String
  name : String
  hiveType : String
deriving Repr, DecidableEq

/-- The tabular dataset held in `data_cache` (the DataFrame's rows). -/
def Dataset : Type := List Reading
deriving instance Repr, DecidableEq for Dataset

/-- The hive-configuration list held in `config_cache`. -/
def ConfigList : Type := List HiveConfig
deriving instance Repr, DecidableEq for ConfigList

/-- Error kinds raised by the loader: `ValueError`, `FileNotFoundError`,
and any other `Exception`. -/
inductive ErrKind
  | valueErr
  | notFound
  | otherErr
deriving Repr, DecidableEq

/-- A raised Python exception: its class and its message. -/
structure LoadError where
  kind : ErrKind
  msg : String
deriving Repr, DecidableEq

/-- Oracle for one round of external requests: the fingerprint lookups
(`_get_file_hash_from_github`, which swallows every failure into `None`)
and the content fetch + JSON parse (`load_json_from_github`, which raises
`FileNotFoundError` on 404, `ValueError` on empty or malformed content,
and a generic `Exception` on other transport failures). -/
structure Remote where
  dataHash : Option String
  configHash : Option String
  dataJson : Except LoadError (List RawReading)
  configJson : Except LoadError ConfigList

/-- Mutable state of the `GitHubDataLoader` instance.  The caches hold heap
addresses of the cached DataFrame and config objects.  `loops` is ghost
instrumentation: the number of `monitor_loop` threads that have been
launched by `start_monitoring` and have not yet observed a cleared
`monitoring` flag and returned. -/
structure LoaderState where
  data_cache : Option Nat
  config_cache : Option Nat
  last_data_hash : Option String
  last_config_hash : Option String
  monitoring : Bool
  loops : Nat
deriving Repr, DecidableEq

/-- The state `__init__` leaves behind (caches empty, no baseline hashes,
monitoring off). -/
def initLoader : LoaderState :=
  { data_cache := none, config_cache := none, last_data_hash := none,
    last_config_hash := none, monitoring := false, loops := 0 }

/-- Association lookup on an address list (newest binding first). -/
def assocFind {β : Type} (a : Nat) : List (Nat × β) → Option β
  | [] => none
  | (k, v) :: rest => if k = a then some v else assocFind a rest

/-- Heap of Python objects reachable from the loader: DataFrames and config
lists, addressed by allocation order.  `next` is the next fresh address. -/
structure Heap where
  next : Nat
  dsets : List (Nat × Dataset)
  cfgs : List (Nat × ConfigList)
deriving Repr, DecidableEq

/-- Allocate a fresh DataFrame object (`pd.DataFrame(...)` or `.copy()`). -/
def Heap.allocDs (h : Heap) (v : Dataset) : Nat × Heap :=
  (h.next, { h with next := h.next + 1, dsets := (h.next, v) :: h.dsets })

/-- Allocate a fresh config-list object. -/
def Heap.allocCfg (h : Heap) (v : ConfigList) : Nat × Heap :=
  (h.next, { h with next := h.next + 1, cfgs := (h.next, v) :: h.cfgs })

/-- Read the DataFrame at an address (empty for a dangling address). -/
def Heap.getDs (h : Heap) (a : Nat) : Dataset :=
  (assocFind a h.dsets).getD []

/-- Read the config list at an address. -/
def Heap.getCfg (h : Heap) (a : Nat) : ConfigList :=
  (assocFind a h.cfgs).getD []

/-- In-place mutation of the DataFrame object at address `a`. -/
def Heap.writeDs (h : Heap) (a : Nat) (v : Dataset) : Heap :=
  { h with dsets := (a, v) :: h.dsets }

/-- In-place mutation of the config-list object at address `a`. -/
def Heap.writeCfg (h : Heap) (a : Nat) (v : ConfigList) : Heap :=
  { h with cfgs := (a, v) :: h.cfgs }

/-- `check_for_updates` (data_loader.py:84-111).  The two fingerprints it
observed are supplied by the oracle; it can never itself raise, because
`_get_file_hash_from_github` already converts every failure to `None`.
Returns the reported flag plus the updated state (the observed hashes are
always persisted as the new baseline). -/
def check_for_updates (dataHash configHash : Option String)
    (s : LoaderState) : Bool × LoaderState :=
  let data_updated :=
    decide (dataHash ≠ s.last_data_hash) && s.last_data_hash.isSome
  let config_updated :=
    decide (configHash ≠ s.last_config_hash) && s.last_config_hash.isSome
  (data_updated || config_updated,
   { s with last_data_hash := dataHash, last_config_hash := configHash })

/-- The `pd.to_datetime` conversion of one raw timestamp string, abstracted
to integer instants (a nonempty all-digit string parses to its value, any
other string fails); `none` models the parse raising. -/
def pd_to_datetime (ts : String) : Option Int :=
  match ts.data with
  | [] => none
  | cs =>
    if cs.all (fun c => decide (48 ≤ c.toNat ∧ c.toNat ≤ 57)) then
      some (Int.ofNat (cs.foldl (fun acc c => acc * 10 + (c.toNat - 48)) 0))
    else none

/-- `pd.DataFrame(data)` followed by
`df['timestamp'] = pd.to_datetime(df['timestamp'])`
(data_loader.py:125-126): builds the dataset, raising if any timestamp
fails to convert. -/
def toDataFrame : List RawReading → Except LoadError Dataset
  | [] => .ok []
  | rr :: rest =>
    match pd_to_datetime rr.timestamp with
    | none => .error ⟨.otherErr, "to_datetime failed on " ++ rr.timestamp⟩
    | some t =>
      match toDataFrame rest with
      | .error e => .error e
      | .ok ds =>
        .ok ({ hiveId := rr.hiveId, timestamp := t,
               temperature := rr.temperature, humidity := rr.humidity,
               weight := rr.weight } :: ds)

/-- The body of the reload `try` block (data_loader.py:121-126): fetch and
parse both artifacts, then convert the DataFrame; the first failure
raises. -/
def reloadBody (r : Remote) : Except LoadError (Dataset × ConfigList) :=
  match r.dataJson with
  | .error e => .error e
  | .ok data =>
    match r.configJson with
    | .error e => .error e
    | .ok cfg =>
      match toDataFrame data with
      | .error e => .error e
      | .ok df => .ok (df, cfg)

/-- `load_data_with_cache` (data_loader.py:113-143).  The reload condition
`self.data_cache is None or self.config_cache is None or
self.check_for_updates()` short-circuits, so `check_for_updates` (and its
baseline write) runs only when both caches are populated.  On success the
fresh DataFrame and config are allocated and installed (lines 129-130); on
failure with a fully populated cache the previous data is served (line
139); otherwise the error propagates (line 141).  Every non-raising exit
returns `self.data_cache.copy(), self.config_cache` — a fresh copy of the
cached DataFrame but the cached config object itself (lines 139, 143). -/
def load_data_with_cache (r : Remote) (h : Heap) (s : LoaderState) :
    Except LoadError (Nat × Nat) × Heap × LoaderState :=
  match s.data_cache, s.config_cache with
  | some da, some ca =>
    let chk := check_for_updates r.dataHash r.configHash s
    let s1 := chk.2
    if chk.1 then
      match reloadBody r with
      | .ok (df, cfg) =>
        let a1 := (h.allocDs df).1
        let h1 := (h.allocDs df).2
        let a2 := (h1.allocCfg cfg).1
        let h2 := (h1.allocCfg cfg).2
        let s2 := { s1 with data_cache := some a1, config_cache := some a2 }
        let ra := (h2.allocDs (h2.getDs a1)).1
        let h3 := (h2.allocDs (h2.getDs a1)).2
        (.ok (ra, a2), h3, s2)
      | .error _ =>
        -- both caches populated: log and serve the cached copy (line 139)
        let ra := (h.allocDs (h.getDs da)).1
        let h1 := (h.allocDs (h.getDs da)).2
        (.ok (ra, ca), h1, s1)
    else
      let ra := (h.allocDs (h.getDs da)).1
      let h1 := (h.allocDs (h.getDs da)).2
      (.ok (ra, ca), h1, s1)
  | _, _ =>
    -- at least one cache empty: forced reload, check_for_updates not called
    match reloadBody r with
    | .ok (df, cfg) =>
      let a1 := (h.allocDs df).1
      let h1 := (h.allocDs df).2
      let a2 := (h1.allocCfg cfg).1
      let h2 := (h1.allocCfg cfg).2
      let s2 := { s with data_cache := some a1, config_cache := some a2 }
      let ra := (h2.allocDs (h2.getDs a1)).1
      let h3 := (h2.allocDs (h2.getDs a1)).2
      (.ok (ra, a2), h3, s2)
    | .error e =>
      -- the fallback guard `data_cache is not None and config_cache is not
      -- None` is false in this branch, so the exception is re-raised
      (.error e, h, s)

/-- `start_monitoring` (data_loader.py:145-163): returns immediately when
already monitoring, otherwise sets the flag and launches one
`monitor_loop` thread (counted in the ghost field `loops`). -/
def start_monitoring (s : LoaderState) : LoaderState :=
  if s.monitoring then s
  else { s with monitoring := true, loops := s.loops + 1 }

/-- `stop_monitoring` (data_loader.py:165-168): clears the flag; running
loops are not cancelled, they exit at their next flag check. -/
def stop_monitoring (s : LoaderState) : LoaderState :=
  { s with monitoring := false }

/-- One observable event of the monitoring lifecycle: a foreground call to
`start_monitoring` or `stop_monitoring`, or one `monitor_loop` thread
reaching the top of its `while self.monitoring` loop (with the fingerprints
the ensuing `check_for_updates` would observe). -/
inductive MonAction
  | startM
  | stopM
  | loopIter (dataHash configHash : Option String)
deriving Repr, DecidableEq

/-- Transition function of the monitoring lifecycle.  A `loopIter` by a
live thread either runs one `check_for_updates` iteration (flag set) or
observes the cleared flag and exits (flag clear). -/
def monStep (a : MonAction) (s : LoaderState) : LoaderState :=
  match a with
  | .startM => start_monitoring s
  | .stopM => stop_monitoring s
  | .loopIter dh ch =>
    if s.loops = 0 then s
    else if s.monitoring then (check_for_updates dh ch s).2
    else { s with loops := s.loops - 1 }

/-- Run a sequence of monitoring-lifecycle events. -/
def runMon (acts : List MonAction) (s : LoaderState) : LoaderState :=
  acts.foldl (fun st a => monStep a st) s

/-- The exception-wrapping of `load_beehive_data_from_json`
(data_loader.py:186-191): each caught class is re-raised with a wrapped
message. -/
def wrap_load_error (e : LoadError) : LoadError :=
  match e.kind with
  | .valueErr => ⟨.valueErr, "GitHub configuration error: " ++ e.msg⟩
  | .notFound =>
    ⟨.notFound, e.msg ++
      ". Please ensure the JSON files exist in your GitHub repository."⟩
  | .otherErr => ⟨.otherErr, "Error loading data from GitHub: " ++ e.msg⟩

/-- `load_beehive_data_from_json` (data_loader.py:173-191): starts
monitoring when not already started, delegates to `load_data_with_cache`,
and re-wraps any raised exception. -/
def load_beehive_data_from_json (r : Remote) (h : Heap) (s : LoaderState) :
    Except LoadError (Nat × Nat) × Heap × LoaderState :=
  let s1 := if s.monitoring then s else start_monitoring s
  let res := load_data_with_cache r h s1
  (res.1.mapError wrap_load_error, res.2)

/-- `refresh_data` (data_loader.py:217-226): clears both caches, then
reloads through `load_beehive_data_from_json`. -/
def refresh_data (r : Remote) (h : Heap) (s : LoaderState) :
    Except LoadError (Nat × Nat) × Heap × LoaderState :=
  let s1 := { s with data_cache := none, config_cache := none }
  load_beehive_data_from_json r h s1

/-- The metadata dict built by `get_data_info`. -/
structure DataInfo where
  source : String
  total_records : Nat
  num_hives : Nat
  date_range : String
  hive_names : List String
  auto_update : Bool
deriving Repr, DecidableEq

/-- Minimum of a nonempty list of timestamp strings (Python `min`,
lexicographic on strings). -/
def strListMin (x : String) (xs : List String) : String :=
  xs.foldl min x

/-- Maximum of a nonempty list of timestamp strings (Python `max`). -/
def strListMax (x : String) (xs : List String) : String :=
  xs.foldl max x

/-- `get_data_info` (data_loader.py:193-215): fetches both artifacts
directly (bypassing the cache entirely), computes the metadata, and
converts any raised exception into an error string.  `min`/`max` of the
timestamps raise on an empty data list.  The loader state is read only for
the `auto_update` flag. -/
def get_data_info (r : Remote) (s : LoaderState) :
    Except String DataInfo × LoaderState :=
  match r.dataJson with
  | .error e => (.error ("Error getting data info from GitHub: " ++ e.msg), s)
  | .ok data =>
    match r.configJson with
    | .error e =>
      (.error ("Error getting data info from GitHub: " ++ e.msg), s)
    | .ok cfg =>
      match data with
      | [] =>
        (.error
          "Error getting data info from GitHub: min() arg is an empty sequence",
         s)
      | d :: ds =>
        let start_date := strListMin d.timestamp (ds.map (fun it => it.timestamp))
        let end_date := strListMax d.timestamp (ds.map (fun it => it.timestamp))
        (.ok { source := "github",
               total_records := (d :: ds).length,
               num_hives := cfg.length,
               date_range := start_date ++ " to " ++ end_date,
               hive_names := cfg.map (fun hv => hv.name),
               auto_update := s.monitoring },
         s)

/-! ### Shared sample objects (used by the concrete witnesses) -/

/-- A sample parsed reading. -/
def sampleReading : Reading :=
  { hiveId := "hive_1", timestamp := 100, temperature := 35, humidity := 60,
    weight := 20 }

/-- A sample raw reading whose timestamp converts to `sampleReading`'s. -/
def sampleRaw : RawReading :=
  { hiveId := "hive_1", timestamp := "100", temperature := 35, humidity := 60,
    weight := 20 }

/-- A sample hive configuration entry. -/
def sampleCfg : HiveConfig :=
  { id := "hive_1", name := "Hive Alpha", hiveType := "langstroth" }

/-- A heap holding one cached DataFrame (address 0) and one cached config
list (address 1). -/
def sampleHeap : Heap :=
  { next := 2, dsets := [(0, [sampleReading])], cfgs := [(1, [sampleCfg])] }

/-- A loader state whose caches point at `sampleHeap`'s objects, with
baseline fingerprints recorded. -/
def sampleState : LoaderState :=
  { data_cache := some 0, config_cache := some 1, last_data_hash := some "a1",
    last_config_hash := some "b1", monitoring := true, loops := 1 }

/-- A remote on which the data fingerprint changed and the data fetch
fails. -/
def failingRemote : Remote :=
  { dataHash := some "a2", configHash := some "b1",
    dataJson := .error ⟨.notFound,
      "File beehive_data.json not found in GitHub repository"⟩,
    configJson := .ok [sampleCfg] }

/-- A remote whose fingerprints match `sampleState`'s baseline (no change)
— its content channel is irrelevant on the no-change path. -/
def quietRemote : Remote :=
  { dataHash := some "a1", configHash := some "b1",
    dataJson := .ok [sampleRaw], configJson := .ok [sampleCfg] }

/-- A remote whose fingerprints match `sampleState`'s baseline and whose
fetches succeed. -/
def okRemote : Remote :=
  { dataHash := some "a1", configHash := some "b1",
    dataJson := .ok [sampleRaw], configJson := .ok [sampleCfg] }

/-! ### Heap frame lemmas -/

/-- Reading past a binding for a different address. -/
theorem assocFind_cons_ne {β : Type} (a k : Nat) (v : β) (l : List (Nat × β))
    (hne : k ≠ a) : assocFind a ((k, v) :: l) = assocFind a l := by
  simp [assocFind, hne]

/-- Mutating one DataFrame object leaves every other address unchanged. -/
theorem getDs_writeDs_ne (h : Heap) (a b : Nat) (v : Dataset) (hne : a ≠ b) :
    (h.writeDs a v).getDs b = h.getDs b := by
  simp [Heap.writeDs, Heap.getDs, assocFind, hne]

/-- Mutating a DataFrame object is visible at its own address. -/
theorem getDs_writeDs_eq (h : Heap) (a : Nat) (v : Dataset) :
    (h.writeDs a v).getDs a = v := by
  simp [Heap.writeDs, Heap.getDs, assocFind]

/-- Mutating a config object is visible at its own address. -/
theorem getCfg_writeCfg_eq (h : Heap) (a : Nat) (v : ConfigList) :
    (h.writeCfg a v).getCfg a = v := by
  simp [Heap.writeCfg, Heap.getCfg, assocFind]

/-! ### Claims -/

/-- C1 counterexample: with a non-null recorded baseline `some "a1"` for the
data artifact, a freshly observed `None` fingerprint (hash lookup failed or
artifact gone) makes `check_for_updates` return `true` — refuting the claim
that a freshly observed `None` fingerprint never by itself causes a
reported change. -/
theorem check_for_updates_none_observed_reports_change :
    (check_for_updates none (some "b1")
      { initLoader with last_data_hash := some "a1",
                        last_config_hash := some "b1" }).1 = true := by
  decide

/-- C1 (amended): `check_for_updates` reports a change exactly when some
freshly observed fingerprint (possibly `None`) differs from a non-null
stored baseline; a `None` stored baseline never by itself triggers a
report, but a freshly observed `None` against a differing non-null baseline
does. -/
theorem check_for_updates_change_iff (dh ch : Option String)
    (s : LoaderState) :
    (check_for_updates dh ch s).1 = true ↔
      ((s.last_data_hash ≠ none ∧ dh ≠ s.last_data_hash) ∨
       (s.last_config_hash ≠ none ∧ ch ≠ s.last_config_hash)) := by
  simp [check_for_updates, Option.isSome_iff_ne_none, and_comm]

/-- C2: every completed `check_for_updates` call persists the freshly
observed fingerprints as the new baseline regardless of the reported flag;
and in the recorded scenario, re-observing `{a1, b1}` reports no change
while then observing `{a2, b1}` reports a change and leaves the baseline at
`{a2, b1}`. -/
theorem check_for_updates_persists_baseline_and_scenario :
    (∀ (dh ch : Option String) (s : LoaderState),
        (check_for_updates dh ch s).2.last_data_hash = dh ∧
        (check_for_updates dh ch s).2.last_config_hash = ch) ∧
    (check_for_updates (some "a1") (some "b1")
        (check_for_updates (some "a1") (some "b1") initLoader).2).1 = false ∧
    (check_for_updates (some "a2") (some "b1")
        (check_for_updates (some "a1") (some "b1")
          (check_for_updates (some "a1") (some "b1") initLoader).2).2).1
      = true ∧
    (check_for_updates (some "a2") (some "b1")
        (check_for_updates (some "a1") (some "b1")
          (check_for_updates (some "a1") (some "b1") initLoader).2).2).2.last_data_hash
      = some "a2" ∧
    (check_for_updates (some "a2") (some "b1")
        (check_for_updates (some "a1") (some "b1")
          (check_for_updates (some "a1") (some "b1") initLoader).2).2).2.last_config_hash
      = some "b1" := by
  refine ⟨fun dh ch s => ⟨rfl, rfl⟩, ?_, ?_, ?_, ?_⟩ <;> decide

/-- C7: `get_data_info` never mutates the loader: the state after any call,
successful or failing, is exactly the state before it (it fetches both
artifacts directly and only reads the monitoring flag). -/
theorem get_data_info_preserves_state (r : Remote) (s : LoaderState) :
    (get_data_info r s).2 = s := by
  cases hd : r.dataJson with
  | error e => simp [get_data_info, hd]
  | ok data =>
    cases hc : r.configJson with
    | error e => simp [get_data_info, hd, hc]
    | ok cfg =>
      cases data with
      | nil => simp [get_data_info, hd, hc]
      | cons d ds => simp [get_data_info, hd, hc]

/-- C8 counterexample: from the fresh loader, the event sequence `start();
stop(); start()` — where the first loop has not yet reached its next
`while self.monitoring` check between the `stop` and the second `start` —
leaves the flag set and two launched, never-exiting monitor loops, refuting
"at most one polling loop is active at a time". -/
theorem stop_start_race_two_loops :
    (runMon [MonAction.startM, MonAction.stopM, MonAction.startM]
        initLoader).loops = 2 ∧
    (runMon [MonAction.startM, MonAction.stopM, MonAction.startM]
        initLoader).monitoring = true := by
  decide

/-- C8 (amended): calling `start_monitoring` while monitoring is already
active leaves the loader's state unchanged and launches no additional loop,
and `stop_monitoring` merely clears the running flag, changes nothing else,
and is idempotent; the at-most-one-active-loop bound, however, does not
survive a `stop` immediately followed by `start` (see the race
counterexample). -/
theorem start_stop_flag_semantics :
    (∀ s : LoaderState, s.monitoring = true → start_monitoring s = s) ∧
    (∀ s : LoaderState,
        stop_monitoring (stop_monitoring s) = stop_monitoring s ∧
        (stop_monitoring s).monitoring = false ∧
        (stop_monitoring s).loops = s.loops ∧
        (stop_monitoring s).data_cache = s.data_cache ∧
        (stop_monitoring s).config_cache = s.config_cache ∧
        (stop_monitoring s).last_data_hash = s.last_data_hash ∧
        (stop_monitoring s).last_config_hash = s.last_config_hash) := by
  constructor
  · intro s hs
    simp [start_monitoring, hs]
  · intro s
    simp [stop_monitoring]

/-- Witness for C8 (amended) at a concrete already-monitoring state. -/
theorem start_stop_flag_semantics_witness :
    start_monitoring { initLoader with monitoring := true, loops := 1 } =
      { initLoader with monitoring := true, loops := 1 } :=
  start_stop_flag_semantics.1
    { initLoader with monitoring := true, loops := 1 } rfl

/-- C4: a `load_data_with_cache` call on an empty cache (no cached dataset
or no cached config) whose fetch/parse of either artifact fails raises the
error to the caller and leaves heap and loader state — in particular the
still-empty cache — exactly as they were. -/
theorem load_empty_cache_failure_raises
    (r : Remote) (h : Heap) (s : LoaderState) (e : LoadError)
    (hempty : s.data_cache = none ∨ s.config_cache = none)
    (hfail : reloadBody r = .error e) :
    load_data_with_cache r h s = (.error e, h, s) := by
  rcases hempty with hd | hc
  · cases hc : s.config_cache <;>
      simp [load_data_with_cache, hd, hc, hfail]
  · cases hd : s.data_cache <;>
      simp [load_data_with_cache, hd, hc, hfail]

/-- Witness for C4: a first-ever load against a missing data artifact
raises `FileNotFoundError` and leaves the fresh loader untouched. -/
theorem load_empty_cache_failure_raises_witness :
    load_data_with_cache failingRemote sampleHeap initLoader =
      (.error ⟨.notFound,
         "File beehive_data.json not found in GitHub repository"⟩,
       sampleHeap, initLoader) :=
  load_empty_cache_failure_raises failingRemote sampleHeap initLoader
    ⟨.notFound, "File beehive_data.json not found in GitHub repository"⟩
    (Or.inl rfl) rfl

/-- C3: on a fully populated cache, when the change detector fires and the
reload's fetch/parse fails, `load_data_with_cache` returns a fresh copy of
the previously cached DataFrame together with the previously cached config
object, raises nothing, and leaves both cache slots and both cached heap
objects untouched (no partial update). -/
theorem load_failed_reload_serves_cache
    (r : Remote) (h : Heap) (da ca : Nat) (ldh lch : Option String)
    (mon : Bool) (lp : Nat) (e : LoadError)
    (hda : da < h.next)
    (hchg : (check_for_updates r.dataHash r.configHash
        ⟨some da, some ca, ldh, lch, mon, lp⟩).1 = true)
    (hfail : reloadBody r = .error e) :
    ∃ ra h' s',
      load_data_with_cache r h ⟨some da, some ca, ldh, lch, mon, lp⟩ =
        (.ok (ra, ca), h', s') ∧
      h'.getDs ra = h.getDs da ∧
      s'.data_cache = some da ∧
      s'.config_cache = some ca ∧
      h'.getDs da = h.getDs da ∧
      h'.getCfg ca = h.getCfg ca := by
  refine ⟨h.next, (h.allocDs (h.getDs da)).2,
    (check_for_updates r.dataHash r.configHash
      ⟨some da, some ca, ldh, lch, mon, lp⟩).2,
    ?_, ?_, ?_, ?_, ?_, ?_⟩
  · simp [load_data_with_cache, hchg, hfail, Heap.allocDs]
  · simp [Heap.allocDs, Heap.getDs, assocFind]
  · simp [check_for_updates]
  · simp [check_for_updates]
  · simp [Heap.allocDs, Heap.getDs,
      assocFind_cons_ne _ _ _ _ (Nat.ne_of_gt hda)]
  · simp [Heap.allocDs, Heap.getCfg]

/-- Witness for C3 at a concrete populated cache whose reload fails. -/
theorem load_failed_reload_serves_cache_witness :
    ∃ ra h' s',
      load_data_with_cache failingRemote sampleHeap
          ⟨some 0, some 1, some "a1", some "b1", true, 1⟩ =
        (.ok (ra, 1), h', s') ∧
      h'.getDs ra = sampleHeap.getDs 0 ∧
      s'.data_cache = some 0 ∧
      s'.config_cache = some 1 ∧
      h'.getDs 0 = sampleHeap.getDs 0 ∧
      h'.getCfg 1 = sampleHeap.getCfg 1 :=
  load_failed_reload_serves_cache failingRemote sampleHeap 0 1
    (some "a1") (some "b1") true 1
    ⟨.notFound, "File beehive_data.json not found in GitHub repository"⟩
    (by decide) (by decide) rfl

/-- C5: two consecutive `load_data_with_cache` calls on a populated cache
with no intervening upstream change (both remotes report the baseline
fingerprints) return DataFrames that are value-equal to each other and to
the cached one, yet live at three pairwise distinct addresses, so mutating
either returned DataFrame changes neither the other one nor the cache. -/
theorem load_returns_independent_copies
    (r r' : Remote) (h : Heap) (da ca : Nat) (ldh lch : Option String)
    (mon : Bool) (lp : Nat)
    (hda : da < h.next)
    (hr1 : r.dataHash = ldh) (hr2 : r.configHash = lch)
    (hr1' : r'.dataHash = ldh) (hr2' : r'.configHash = lch) :
    ∃ h1 h2,
      load_data_with_cache r h ⟨some da, some ca, ldh, lch, mon, lp⟩ =
        (.ok (h.next, ca), h1, ⟨some da, some ca, ldh, lch, mon, lp⟩) ∧
      load_data_with_cache r' h1 ⟨some da, some ca, ldh, lch, mon, lp⟩ =
        (.ok (h.next + 1, ca), h2,
         ⟨some da, some ca, ldh, lch, mon, lp⟩) ∧
      h2.getDs h.next = h.getDs da ∧
      h2.getDs (h.next + 1) = h.getDs da ∧
      h.next ≠ h.next + 1 ∧ h.next ≠ da ∧ h.next + 1 ≠ da ∧
      (∀ v : Dataset,
        (h2.writeDs h.next v).getDs (h.next + 1) = h2.getDs (h.next + 1) ∧
        (h2.writeDs h.next v).getDs da = h2.getDs da) ∧
      (∀ v : Dataset,
        (h2.writeDs (h.next + 1) v).getDs h.next = h2.getDs h.next ∧
        (h2.writeDs (h.next + 1) v).getDs da = h2.getDs da) := by
  subst hr1 hr2
  refine ⟨(h.allocDs (h.getDs da)).2,
    ((h.allocDs (h.getDs da)).2.allocDs
      ((h.allocDs (h.getDs da)).2.getDs da)).2,
    ?_, ?_, ?_, ?_, by omega, Nat.ne_of_gt hda, by omega, ?_, ?_⟩
  · simp [load_data_with_cache, check_for_updates, Heap.allocDs]
  · simp [load_data_with_cache, check_for_updates, Heap.allocDs, hr1', hr2']
  · simp [Heap.allocDs, Heap.getDs, assocFind,
      Nat.ne_of_gt hda]
  · simp [Heap.allocDs, Heap.getDs, assocFind,
      Nat.ne_of_gt hda]
  · intro v
    exact ⟨getDs_writeDs_ne _ _ _ _ (by omega),
      getDs_writeDs_ne _ _ _ _ (Nat.ne_of_gt hda)⟩
  · intro v
    refine ⟨getDs_writeDs_ne _ _ _ _ (by omega),
      getDs_writeDs_ne _ _ _ _ (by omega)⟩

/-- Witness for C5 on the concrete populated cache with matching
fingerprints. -/
theorem load_returns_independent_copies_witness :
    ∃ h1 h2,
      load_data_with_cache quietRemote sampleHeap
          ⟨some 0, some 1, some "a1", some "b1", true, 1⟩ =
        (.ok (sampleHeap.next, 1), h1,
         ⟨some 0, some 1, some "a1", some "b1", true, 1⟩) ∧
      load_data_with_cache quietRemote h1
          ⟨some 0, some 1, some "a1", some "b1", true, 1⟩ =
        (.ok (sampleHeap.next + 1, 1), h2,
         ⟨some 0, some 1, some "a1", some "b1", true, 1⟩) ∧
      h2.getDs sampleHeap.next = sampleHeap.getDs 0 ∧
      h2.getDs (sampleHeap.next + 1) = sampleHeap.getDs 0 ∧
      sampleHeap.next ≠ sampleHeap.next + 1 ∧ sampleHeap.next ≠ 0 ∧
      sampleHeap.next + 1 ≠ 0 ∧
      (∀ v : Dataset,
        (h2.writeDs sampleHeap.next v).getDs (sampleHeap.next + 1) =
          h2.getDs (sampleHeap.next + 1) ∧
        (h2.writeDs sampleHeap.next v).getDs 0 = h2.getDs 0) ∧
      (∀ v : Dataset,
        (h2.writeDs (sampleHeap.next + 1) v).getDs sampleHeap.next =
          h2.getDs sampleHeap.next ∧
        (h2.writeDs (sampleHeap.next + 1) v).getDs 0 = h2.getDs 0) :=
  load_returns_independent_copies quietRemote quietRemote sampleHeap 0 1
    (some "a1") (some "b1") true 1 (by decide) rfl rfl rfl rfl

/-- C9: on a populated cache with no upstream change, the config list
returned by `load_data_with_cache` is not a copy but the cached object
itself: the returned address is the cache's own `config_cache` address, a
caller-side mutation through it is visible in the cache, and the next
`load_data_with_cache` call hands back that same mutated object. -/
theorem load_returns_config_alias
    (r : Remote) (h : Heap) (da ca : Nat) (ldh lch : Option String)
    (mon : Bool) (lp : Nat)
    (hr1 : r.dataHash = ldh) (hr2 : r.configHash = lch) :
    ∃ h1,
      load_data_with_cache r h ⟨some da, some ca, ldh, lch, mon, lp⟩ =
        (.ok (h.next, ca), h1, ⟨some da, some ca, ldh, lch, mon, lp⟩) ∧
      (∀ v : ConfigList, (h1.writeCfg ca v).getCfg ca = v) ∧
      (∀ v : ConfigList,
        load_data_with_cache r (h1.writeCfg ca v)
            ⟨some da, some ca, ldh, lch, mon, lp⟩ =
          (.ok (h.next + 1, ca),
           ((h1.writeCfg ca v).allocDs ((h1.writeCfg ca v).getDs da)).2,
           ⟨some da, some ca, ldh, lch, mon, lp⟩) ∧
        (((h1.writeCfg ca v).allocDs
            ((h1.writeCfg ca v).getDs da)).2).getCfg ca = v) := by
  subst hr1 hr2
  refine ⟨(h.allocDs (h.getDs da)).2, ?_, ?_, ?_⟩
  · simp [load_data_with_cache, check_for_updates, Heap.allocDs]
  · intro v
    exact getCfg_writeCfg_eq _ _ _
  · intro v
    constructor
    · simp [load_data_with_cache, check_for_updates, Heap.allocDs,
        Heap.writeCfg]
    · simp [Heap.allocDs, Heap.writeCfg, Heap.getCfg, assocFind]

/-- Witness for C9 on the concrete populated cache. -/
theorem load_returns_config_alias_witness :
    ∃ h1,
      load_data_with_cache quietRemote sampleHeap
          ⟨some 0, some 1, some "a1", some "b1", true, 1⟩ =
        (.ok (sampleHeap.next, 1), h1,
         ⟨some 0, some 1, some "a1", some "b1", true, 1⟩) ∧
      (∀ v : ConfigList, (h1.writeCfg 1 v).getCfg 1 = v) ∧
      (∀ v : ConfigList,
        load_data_with_cache quietRemote (h1.writeCfg 1 v)
            ⟨some 0, some 1, some "a1", some "b1", true, 1⟩ =
          (.ok (sampleHeap.next + 1, 1),
           ((h1.writeCfg 1 v).allocDs ((h1.writeCfg 1 v).getDs 0)).2,
           ⟨some 0, some 1, some "a1", some "b1", true, 1⟩) ∧
        (((h1.writeCfg 1 v).allocDs
            ((h1.writeCfg 1 v).getDs 0)).2).getCfg 1 = v) :=
  load_returns_config_alias quietRemote sampleHeap 0 1
    (some "a1") (some "b1") true 1 rfl rfl

/-- C6: `refresh_data` bypasses the change detector: even when the observed
fingerprints equal the stored baseline (so `check_for_updates` would report
no change) and the cache is populated, it discards both cache slots, fetches
both artifacts fresh, installs them at newly allocated addresses, returns
the fresh content, and never consults (or updates) the fingerprint
baseline. -/
theorem refresh_bypasses_change_detector
    (r : Remote) (h : Heap) (s : LoaderState) (df : Dataset)
    (cfg : ConfigList)
    (hok : reloadBody r = .ok (df, cfg))
    (_hno1 : r.dataHash = s.last_data_hash)
    (_hno2 : r.configHash = s.last_config_hash) :
    (refresh_data r h s).1 = .ok (h.next + 2, h.next + 1) ∧
    (refresh_data r h s).2.1.getDs (h.next + 2) = df ∧
    (refresh_data r h s).2.1.getCfg (h.next + 1) = cfg ∧
    (refresh_data r h s).2.2.data_cache = some h.next ∧
    (refresh_data r h s).2.2.config_cache = some (h.next + 1) ∧
    (refresh_data r h s).2.1.getDs h.next = df ∧
    (refresh_data r h s).2.2.last_data_hash = s.last_data_hash ∧
    (refresh_data r h s).2.2.last_config_hash = s.last_config_hash := by
  cases hm : s.monitoring <;>
    simp [refresh_data, load_beehive_data_from_json, load_data_with_cache,
      start_monitoring, hm, hok, Heap.allocDs, Heap.allocCfg, Heap.getDs,
      Heap.getCfg, assocFind, Except.mapError]

/-- Witness for C6: refreshing against an unchanged but reachable remote. -/
theorem refresh_bypasses_change_detector_witness :
    (refresh_data okRemote sampleHeap sampleState).1 =
      .ok (sampleHeap.next + 2, sampleHeap.next + 1) ∧
    (refresh_data okRemote sampleHeap sampleState).2.1.getDs
        (sampleHeap.next + 2) = [sampleReading] ∧
    (refresh_data okRemote sampleHeap sampleState).2.1.getCfg
        (sampleHeap.next + 1) = [sampleCfg] ∧
    (refresh_data okRemote sampleHeap sampleState).2.2.data_cache =
      some sampleHeap.next ∧
    (refresh_data okRemote sampleHeap sampleState).2.2.config_cache =
      some (sampleHeap.next + 1) ∧
    (refresh_data okRemote sampleHeap sampleState).2.1.getDs
        sampleHeap.next = [sampleReading] ∧
    (refresh_data okRemote sampleHeap sampleState).2.2.last_data_hash =
      sampleState.last_data_hash ∧
    (refresh_data okRemote sampleHeap sampleState).2.2.last_config_hash =
      sampleState.last_config_hash :=
  refresh_bypasses_change_detector okRemote sampleHeap sampleState
    [sampleReading] [sampleCfg] rfl rfl rfl

/-- C10: `refresh_data` is not atomic on failure: it empties both cache
slots before fetching, so when the forced fetch fails the (wrapped) error
propagates to the caller, the heap is untouched, the previously cached good
data is gone from the cache and not restored, and any subsequent
`load_data_with_cache` whose fetch fails raises like a first-ever load. -/
theorem refresh_failure_loses_cache
    (r : Remote) (h : Heap) (da ca : Nat) (ldh lch : Option String)
    (mon : Bool) (lp : Nat) (e : LoadError)
    (hfail : reloadBody r = .error e) :
    (refresh_data r h ⟨some da, some ca, ldh, lch, mon, lp⟩).1 =
      .error (wrap_load_error e) ∧
    (refresh_data r h ⟨some da, some ca, ldh, lch, mon, lp⟩).2.1 = h ∧
    (refresh_data r h
        ⟨some da, some ca, ldh, lch, mon, lp⟩).2.2.data_cache = none ∧
    (refresh_data r h
        ⟨some da, some ca, ldh, lch, mon, lp⟩).2.2.config_cache = none ∧
    (∀ (r' : Remote) (e' : LoadError), reloadBody r' = .error e' →
      (load_data_with_cache r' h
          (refresh_data r h
            ⟨some da, some ca, ldh, lch, mon, lp⟩).2.2).1 = .error e') := by
  cases mon <;>
    exact ⟨by simp [refresh_data, load_beehive_data_from_json,
        load_data_with_cache, start_monitoring, hfail, Except.mapError],
      by simp [refresh_data, load_beehive_data_from_json,
        load_data_with_cache, start_monitoring, hfail],
      by simp [refresh_data, load_beehive_data_from_json,
        load_data_with_cache, start_monitoring, hfail],
      by simp [refresh_data, load_beehive_data_from_json,
        load_data_with_cache, start_monitoring, hfail],
      fun r' e' hf' => by
        simp [refresh_data, load_beehive_data_from_json,
          load_data_with_cache, start_monitoring, hfail, hf',
          Except.mapError]⟩

/-- Witness for C10: a populated cache refreshed against a failing remote
ends up empty with the error raised. -/
theorem refresh_failure_loses_cache_witness :
    (refresh_data failingRemote sampleHeap
        ⟨some 0, some 1, some "a1", some "b1", true, 1⟩).1 =
      .error (wrap_load_error ⟨.notFound,
        "File beehive_data.json not found in GitHub repository"⟩) ∧
    (refresh_data failingRemote sampleHeap
        ⟨some 0, some 1, some "a1", some "b1", true, 1⟩).2.1 = sampleHeap ∧
    (refresh_data failingRemote sampleHeap
        ⟨some 0, some 1, some "a1", some "b1", true, 1⟩).2.2.data_cache =
      none ∧
    (refresh_data failingRemote sampleHeap
        ⟨some 0, some 1, some "a1", some "b1", true, 1⟩).2.2.config_cache =
      none ∧
    (∀ (r' : Remote) (e' : LoadError), reloadBody r' = .error e' →
      (load_data_with_cache r' sampleHeap
          (refresh_data failingRemote sampleHeap
            ⟨some 0, some 1, some "a1", some "b1", true, 1⟩).2.2).1 =
        .error e') :=
  refresh_failure_loses_cache failingRemote sampleHeap 0 1
    (some "a1") (some "b1") true 1
    ⟨.notFound, "File beehive_data.json not found in GitHub repository"⟩
    rfl
